import Mathlib

/-!
# skyfunnel-sequences — verification of the spec's claims against the source

Shallow embedding of the three-stage pipeline (Scheduler → Outbox → Pump →
broker → Worker) of the skyfunnel-sequences repository, together with the
shared utilities the claims mention (idempotency-key derivation, the RabbitMQ
consume retry wrapper, the template processor).  Every definition follows one
function of the TypeScript source; file and line references are given in the
doc comments.
-/

set_option maxRecDepth 100000

namespace Skyfunnel

/-! ## SHA-256

`makeIdemKey` (src/src/utils/scheduler.ts:3-20) hashes a JSON encoding with
Node's `crypto.createHash("sha256")`.  This section is a byte-level SHA-256
over `List Nat` (each entry one byte), standard FIPS 180-4. 32-bit words are
`Nat` reduced mod 2^32.
-/

/-- Reduce to a 32-bit word. -/
def w32 (n : Nat) : Nat := n % 4294967296

/-- Bitwise complement on 32-bit words. -/
def not32 (x : Nat) : Nat := x ^^^ 4294967295

/-- Right rotation of a 32-bit word by `k`. -/
def rotr (k x : Nat) : Nat := w32 ((x >>> k) ||| (x <<< (32 - k)))

def ch32 (x y z : Nat) : Nat := (x &&& y) ^^^ (not32 x &&& z)

def maj32 (x y z : Nat) : Nat := (x &&& y) ^^^ (x &&& z) ^^^ (y &&& z)

def bsig0 (x : Nat) : Nat := rotr 2 x ^^^ rotr 13 x ^^^ rotr 22 x

def bsig1 (x : Nat) : Nat := rotr 6 x ^^^ rotr 11 x ^^^ rotr 25 x

def ssig0 (x : Nat) : Nat := rotr 7 x ^^^ rotr 18 x ^^^ (x >>> 3)

def ssig1 (x : Nat) : Nat := rotr 17 x ^^^ rotr 19 x ^^^ (x >>> 10)

/-- The 64 SHA-256 round constants (FIPS 180-4 §4.2.2), here as decimal
literals. -/
def sha256K : List Nat :=
  [1116352408, 1899447441, 3049323471, 3921009573, 961987163,
   1508970993, 2453635748, 2870763221, 3624381080, 310598401,
   607225278, 1426881987, 1925078388, 2162078206, 2614888103,
   3248222580, 3835390401, 4022224774, 264347078, 604807628,
   770255983, 1249150122, 1555081692, 1996064986, 2554220882,
   2821834349, 2952996808, 3210313671, 3336571891, 3584528711,
   113926993, 338241895, 666307205, 773529912, 1294757372,
   1396182291, 1695183700, 1986661051, 2177026350, 2456956037,
   2730485921, 2820302411, 3259730800, 3345764771, 3516065817,
   3600352804, 4094571909, 275423344, 430227734, 506948616,
   659060556, 883997877, 958139571, 1322822218, 1537002063,
   1747873779, 1955562222, 2024104815, 2227730452, 2361852424,
   2428436474, 2756734187, 3204031479, 3329325298]

/-- SHA-256 working state: eight 32-bit words. -/
structure H8 where
  a : Nat
  b : Nat
  c : Nat
  d : Nat
  e : Nat
  f : Nat
  g : Nat
  hh : Nat
deriving Repr, DecidableEq

/-- The SHA-256 initial hash value (FIPS 180-4 §5.3.3), as decimal literals. -/
def sha256Init : H8 :=
  ⟨1779033703, 3144134277, 1013904242, 2773480762,
   1359893119, 2600822924, 528734635, 1541459225⟩

/-- `k` bytes of `n`, big-endian. -/
def beBytes : Nat → Nat → List Nat
  | 0, _ => []
  | k + 1, n => beBytes k (n / 256) ++ [n % 256]

/-- SHA-256 padding: append `0x80`, zeros to 56 mod 64, then the 64-bit
big-endian bit length. -/
def sha256Pad (msg : List Nat) : List Nat :=
  let len := msg.length
  let zeros := (119 - len % 64) % 64
  msg ++ [128] ++ List.replicate zeros 0 ++ beBytes 8 (len * 8)

/-- Split a byte list into 64-byte blocks (fuel-driven; total). -/
def blocks64Aux : Nat → List Nat → List (List Nat)
  | 0, _ => []
  | _, [] => []
  | fuel + 1, l => l.take 64 :: blocks64Aux fuel (l.drop 64)

def blocks64 (l : List Nat) : List (List Nat) := blocks64Aux l.length l

/-- Fold each group of 4 bytes into a big-endian 32-bit word. -/
def words32 : List Nat → List Nat
  | b0 :: b1 :: b2 :: b3 :: rest =>
      (b0 * 16777216 + b1 * 65536 + b2 * 256 + b3) :: words32 rest
  | _ => []

/-- Extend the 16 message words to 64 (message schedule). -/
def sha256Extend : Nat → List Nat → List Nat
  | 0, w => w
  | n + 1, w =>
      let i := w.length
      let wi := w32 (ssig1 (w.getD (i - 2) 0) + w.getD (i - 7) 0 +
                     ssig0 (w.getD (i - 15) 0) + w.getD (i - 16) 0)
      sha256Extend n (w ++ [wi])

/-- One SHA-256 round with round constant `k` and schedule word `w`. -/
def sha256Round (s : H8) (kw : Nat × Nat) : H8 :=
  let t1 := w32 (s.hh + bsig1 s.e + ch32 s.e s.f s.g + kw.1 + kw.2)
  let t2 := w32 (bsig0 s.a + maj32 s.a s.b s.c)
  ⟨w32 (t1 + t2), s.a, s.b, s.c, w32 (s.d + t1), s.e, s.f, s.g⟩

/-- Compress one 64-byte block into the running hash. -/
def sha256Compress (h0 : H8) (block : List Nat) : H8 :=
  let w := sha256Extend 48 (words32 block)
  let s := (sha256K.zip w).foldl sha256Round h0
  ⟨w32 (h0.a + s.a), w32 (h0.b + s.b), w32 (h0.c + s.c), w32 (h0.d + s.d),
   w32 (h0.e + s.e), w32 (h0.f + s.f), w32 (h0.g + s.g), w32 (h0.hh + s.hh)⟩

/-- The eight 32-bit digest words of a byte message. -/
def sha256Words (msg : List Nat) : List Nat :=
  let s := (blocks64 (sha256Pad msg)).foldl sha256Compress sha256Init
  [s.a, s.b, s.c, s.d, s.e, s.f, s.g, s.hh]

def hexDigitChar (n : Nat) : Char :=
  if n < 10 then Char.ofNat (48 + n) else Char.ofNat (87 + n)

/-- A 32-bit word as 8 lowercase hex characters. -/
def word32Hex (n : Nat) : String :=
  String.mk ((List.range 8).map fun i => hexDigitChar (n / 16 ^ (7 - i) % 16))

/-- Lowercase hex digest of a byte message (`digest("hex")`). -/
def sha256Hex (msg : List Nat) : String :=
  String.join ((sha256Words msg).map word32Hex)

/-- UTF-8 encoding of one character. -/
def utf8Char (c : Char) : List Nat :=
  let n := c.toNat
  if n < 128 then [n]
  else if n < 2048 then [192 + n / 64, 128 + n % 64]
  else if n < 65536 then [224 + n / 4096, 128 + n / 64 % 64, 128 + n % 64]
  else [240 + n / 262144, 128 + n / 4096 % 64, 128 + n / 64 % 64, 128 + n % 64]

/-- UTF-8 encoding of a string (`Buffer`/`update` with utf-8). -/
def utf8Bytes (s : String) : List Nat := s.data.flatMap utf8Char

/-! ## JSON encoding and the idempotency key

`makeIdemKey` (src/src/utils/scheduler.ts:3-20) hashes
`JSON.stringify({sequenceId, leadId, stepNumber, attempt, suffix})`.
`JSON.stringify` emits the keys in insertion order with no whitespace, and
escapes strings as modelled by `jsonEscapeChar`.
-/

/-- JSON escaping of one character, as `JSON.stringify` performs it. -/
def jsonEscapeChar (c : Char) : String :=
  let n := c.toNat
  if n = 34 then "\\\""
  else if n = 92 then "\\\\"
  else if n = 8 then "\\b"
  else if n = 9 then "\\t"
  else if n = 10 then "\\n"
  else if n = 12 then "\\f"
  else if n = 13 then "\\r"
  else if n < 32 then "\\u00" ++ String.mk [hexDigitChar (n / 16), hexDigitChar (n % 16)]
  else String.mk [c]

/-- A string as a JSON string literal. -/
def jsonStr (s : String) : String :=
  "\"" ++ String.join (s.data.map jsonEscapeChar) ++ "\""

/-- The exact string `makeIdemKey` hashes:
`JSON.stringify({sequenceId, leadId, stepNumber, attempt, suffix})`
(src/src/utils/scheduler.ts:10-16). -/
def makeIdemKeyRaw (sequenceId leadId : String) (stepNumber attempt : Nat)
    (suffix : String) : String :=
  "\x7b\"sequenceId\":" ++ jsonStr sequenceId ++
  ",\"leadId\":" ++ jsonStr leadId ++
  ",\"stepNumber\":" ++ toString stepNumber ++
  ",\"attempt\":" ++ toString attempt ++
  ",\"suffix\":" ++ jsonStr suffix ++ "\x7d"

/-- `makeIdemKey` (src/src/utils/scheduler.ts:3-20): SHA-256 of the canonical
JSON encoding, hex, truncated to 32 characters.  In the source `attempt`
defaults to `0` and `suffix` to `""`; callers passing three arguments get
those defaults. -/
def makeIdemKey (sequenceId leadId : String) (stepNumber attempt : Nat)
    (suffix : String) : String :=
  (sha256Hex (utf8Bytes (makeIdemKeyRaw sequenceId leadId stepNumber attempt suffix))).take 32

/-! ## Data model

Timestamps are minutes since an arbitrary epoch, as `Int`; SQL `now()` is a
`now` parameter, `interval '1 minute'` is `1`, `interval '1 hour'` is `60`.
The table schema itself is external to the repository (spec §1: "Database
schema authoring and migrations are external"); column defaults for `Outbox`
(`processed=false`, `retries=0`, `maxRetries` default 5) are modelled from the
spec §3.
-/

/-- `LeadSequenceState.status` values (spec §3). -/
inductive LeadStatus
  | pending
  | running
  | completed
  | failed
  | paused
deriving Repr, DecidableEq

/-- One `LeadSequenceState` row. -/
structure LeadStateRow where
  id : String
  leadId : String
  sequenceId : String
  currentStep : Nat
  status : LeadStatus
  lastSentAt : Option Int
  failureCount : Nat
  updatedAt : Int
deriving Repr, DecidableEq

/-- One `SequenceStep` row (the columns this core reads). -/
structure SequenceStepRow where
  id : String
  sequenceId : String
  stepNumber : Nat
  templateId : String
  minIntervalMin : Nat
deriving Repr, DecidableEq

/-- One `Outbox` row (spec §3). -/
structure OutboxRow where
  id : Nat
  topic : String
  payload : String
  idemKey : String
  processed : Bool
  processedAt : Option Int
  retries : Nat
  maxRetries : Nat
  createdAt : Int
deriving Repr, DecidableEq

/-- The row shape produced by `getPendingLeads` and consumed by the Worker
(string-id variant: src/unnamed/part_001:4-12, matching the Worker's
`PendingLeadSchema`; the variant in src/src/db/queries/scheduler.ts:4-12
types the four id fields as numbers, which claim C10 treats at the JSON
level). -/
structure PendingLead where
  lead_state_id : String
  lead_id : String
  sequence_id : String
  current_step : Nat
  step_id : String
  step_number : Nat
  min_interval_min : Nat
deriving Repr, DecidableEq

/-- `JSON.stringify(lead)` for a pending-lead row with string ids
(src/src/apps/scheduler/index.ts:50). -/
def pendingLeadJsonStr (l : PendingLead) : String :=
  "\x7b\"lead_state_id\":" ++ jsonStr l.lead_state_id ++
  ",\"lead_id\":" ++ jsonStr l.lead_id ++
  ",\"sequence_id\":" ++ jsonStr l.sequence_id ++
  ",\"current_step\":" ++ toString l.current_step ++
  ",\"step_id\":" ++ jsonStr l.step_id ++
  ",\"step_number\":" ++ toString l.step_number ++
  ",\"min_interval_min\":" ++ toString l.min_interval_min ++ "\x7d"

/-- Modelled from the spec: the constant broker queue name.  The module
`src/constant` that exports `SEQUENCE_TOPIC` is not among the source files;
the spec (§6) fixes only that it is a single constant queue name. -/
def SEQUENCE_TOPIC : String := "SEQUENCE_TOPIC"

/-! ## Scheduler: the eligibility query (two source variants)

`getPendingLeads` exists twice in the sources: src/src/db/queries/scheduler.ts:14-35
(the module the scheduler app imports, with **no** `updatedAt` condition) and
src/unnamed/part_001:14-40 (quoted-identifier variant with the additional
`"updatedAt" < now() - interval '1 hour'` condition).  Both join
`SequenceStep` on `sequenceId` and `stepNumber = currentStep + 1`, filter on
status and the `minIntervalMin` cooldown, and `LIMIT max`.
-/

/-- The `SELECT` list of both variants: build the result row from the joined
pair. -/
def mkPendingLead (ls : LeadStateRow) (st : SequenceStepRow) : PendingLead :=
  ⟨ls.id, ls.leadId, ls.sequenceId, ls.currentStep, st.id, st.stepNumber, st.minIntervalMin⟩

/-- The join condition `ON seqStep.sequence_id = leadState.sequence_id AND
seqStep.step_number = leadState.current_step + 1`. -/
def joinCond (ls : LeadStateRow) (st : SequenceStepRow) : Prop :=
  st.sequenceId = ls.sequenceId ∧ st.stepNumber = ls.currentStep + 1

instance (ls : LeadStateRow) (st : SequenceStepRow) : Decidable (joinCond ls st) := by
  unfold joinCond; infer_instance

/-- `status IN ('PENDING','RUNNING')`. -/
def statusActive (ls : LeadStateRow) : Prop :=
  ls.status = LeadStatus.pending ∨ ls.status = LeadStatus.running

instance (ls : LeadStateRow) : Decidable (statusActive ls) := by
  unfold statusActive; infer_instance

/-- `last_sent_at IS NULL OR now() - last_sent_at > min_interval_min * interval '1 minute'`. -/
def cooldownOk (now : Int) (ls : LeadStateRow) (st : SequenceStepRow) : Prop :=
  match ls.lastSentAt with
  | none => True
  | some t => now - t > (st.minIntervalMin : Int)

instance (now : Int) (ls : LeadStateRow) (st : SequenceStepRow) :
    Decidable (cooldownOk now ls st) := by
  unfold cooldownOk; cases ls.lastSentAt <;> infer_instance

/-- `"updatedAt" < now() - interval '1 hour'` — the in-flight backoff guard,
present only in the part_001 variant. -/
def updatedAtGuard (now : Int) (ls : LeadStateRow) : Prop :=
  ls.updatedAt < now - 60

instance (now : Int) (ls : LeadStateRow) : Decidable (updatedAtGuard now ls) := by
  unfold updatedAtGuard; infer_instance

/-- `getPendingLeads` as in src/src/db/queries/scheduler.ts:14-35 — the module
the scheduler app imports.  Join, status filter, cooldown filter, `LIMIT max`;
**no** `updatedAt` condition. -/
def getPendingLeads (states : List LeadStateRow) (steps : List SequenceStepRow)
    (now : Int) (max : Nat) : List PendingLead :=
  (states.flatMap fun ls =>
    steps.filterMap fun st =>
      if joinCond ls st ∧ statusActive ls ∧ cooldownOk now ls st
      then some (mkPendingLead ls st) else none).take max

/-- `getPendingLeads` as in src/unnamed/part_001:14-40: the same query with the
additional `"updatedAt" < now() - interval '1 hour'` condition. -/
def getPendingLeadsGuarded (states : List LeadStateRow) (steps : List SequenceStepRow)
    (now : Int) (max : Nat) : List PendingLead :=
  (states.flatMap fun ls =>
    steps.filterMap fun st =>
      if joinCond ls st ∧ statusActive ls ∧ cooldownOk now ls st ∧ updatedAtGuard now ls
      then some (mkPendingLead ls st) else none).take max

/-! ## Scheduler: the per-lead enqueue transaction and the batch loop

src/src/apps/scheduler/index.ts:34-67 (`handleBatch`) and 69-80 (main loop).
Per lead: compute `makeIdemKey(lead.sequence_id, lead.lead_id,
lead.current_step)` (line 37 — note: `current_step`, not the joined
`step_number = current_step + 1`), count outbox rows with that key; if any
exist, log **info** and `throw new DatabaseError(...)` which rolls the
transaction back; otherwise insert the outbox row and flip the state to
RUNNING.  `handleBatch` contains no try/catch around `sql.begin`, so a thrown
`DatabaseError` propagates out of the per-lead loop: the remaining leads of
the batch are not processed, and the rejection escapes the `while (true)`
loop, which also has no handler around `await handleBatch(leads)`.
-/

/-- Log levels as used by the scheduler paths under study. -/
inductive LogLevel
  | info
  | warn
  | error
deriving Repr, DecidableEq

/-- A log entry: level and which message site produced it. -/
structure LogEntry where
  level : LogLevel
  message : String
deriving Repr, DecidableEq

/-- Database state shared by Scheduler, Pump and Worker. -/
structure Db where
  states : List LeadStateRow
  outbox : List OutboxRow
deriving Repr, DecidableEq

/-- Outcome of the per-lead `sql.begin` transaction. -/
inductive SchedTxResult
  | committed (db : Db) (logs : List LogEntry)
  | thrown (logs : List LogEntry)
deriving Repr, DecidableEq

/-- The per-lead body of `handleBatch` (src/src/apps/scheduler/index.ts:36-65):
idemKey from `current_step`, duplicate check, insert + state flip in one
transaction; a duplicate logs info and throws, rolling the transaction back.
`now` stands for SQL `now()`; `maxR` is the external schema's `maxRetries`
default; the fresh `gen_random_uuid()` is modelled by the next index. -/
def schedulerLeadKey (lead : PendingLead) : String :=
  makeIdemKey lead.sequence_id lead.lead_id lead.current_step 0 ""

/-- `SELECT Count(*) FROM "Outbox" WHERE "idemKey" = $k`
(src/src/apps/scheduler/index.ts:39-41). -/
def schedulerDupCount (db : Db) (idemKey : String) : Nat :=
  (db.outbox.filter fun r => r.idemKey = idemKey).length

def schedulerProcessLead (now : Int) (maxR : Nat) (db : Db) (lead : PendingLead) :
    SchedTxResult :=
  if 0 < schedulerDupCount db (schedulerLeadKey lead) then
    SchedTxResult.thrown [⟨LogLevel.info, "already exists in Outbox"⟩]
  else
    SchedTxResult.committed
      ⟨db.states.map fun s =>
        if s.id = lead.lead_state_id ∧ statusActive s
        then { s with status := LeadStatus.running, updatedAt := now } else s,
       db.outbox ++
        [⟨db.outbox.length, SEQUENCE_TOPIC, pendingLeadJsonStr lead,
          schedulerLeadKey lead, false, none, 0, maxR, now⟩]⟩
      [⟨LogLevel.info, "Processing lead"⟩]

/-- Result of one `handleBatch` call: the database afterwards, the logs, and
whether the batch ran to completion (`false` = a `DatabaseError` escaped the
uncaught per-lead loop, aborting the rest of the batch and the scheduler
loop). -/
def schedulerHandleBatch (now : Int) (maxR : Nat) :
    Db → List PendingLead → Db × List LogEntry × Bool
  | db, [] => (db, [], true)
  | db, lead :: rest =>
    match schedulerProcessLead now maxR db lead with
    | SchedTxResult.thrown logs => (db, logs, false)
    | SchedTxResult.committed db1 logs =>
        let r := schedulerHandleBatch now maxR db1 rest
        (r.1, logs ++ r.2.1, r.2.2)

/-! ## Pump: claim query, revert, publish

The pump source sits in src/src/db/README.md:294-370.  `getPendingOutboxJobs`
(lines 307-322) is the single UPDATE … WHERE id IN (SELECT … FOR UPDATE SKIP
LOCKED) claim; `revertOutbox` (lines 324-329) is the revert whose SQL text
contains a trailing comma (`"processedAt" = null, WHERE`) and is therefore
rejected by Postgres at runtime; `handleOutbox` (lines 331-341) publishes one
claimed job via `RabbitMQ.send` (src/src/utils/rabbitmq.ts:37-46), which wraps
the publish in its own try/catch that only logs — a publish failure never
propagates to `handleOutbox`'s catch (and the `send` call is not awaited).
-/

/-- The rows `getPendingOutboxJobs` RETURNING clause projects. -/
structure OutboxJob where
  id : Nat
  topic : String
  payload : String
  idemKey : String
  retries : Nat
deriving Repr, DecidableEq

/-- `processed = false AND retries < "maxRetries"` — the claim filter. -/
def claimEligible (r : OutboxRow) : Prop :=
  r.processed = false ∧ r.retries < r.maxRetries

instance (r : OutboxRow) : Decidable (claimEligible r) := by
  unfold claimEligible; infer_instance

/-- Stable insertion into a list sorted by `createdAt` (models `ORDER BY
"createdAt"`). -/
def insertByCreatedAt (r : OutboxRow) : List OutboxRow → List OutboxRow
  | [] => [r]
  | x :: xs => if x.createdAt ≤ r.createdAt then x :: insertByCreatedAt r xs else r :: x :: xs

def sortByCreatedAt (l : List OutboxRow) : List OutboxRow :=
  l.foldr insertByCreatedAt []

/-- `getPendingOutboxJobs` (src/src/db/README.md:307-322): atomically mark up
to `max` eligible rows (`processed=false`, `retries < maxRetries`, oldest
first) as `processed=true, processedAt=now(), retries=retries+1` and return
their projections. -/
def getPendingOutboxJobs (now : Int) (max : Nat) (outbox : List OutboxRow) :
    List OutboxRow × List OutboxJob :=
  let selected := ((sortByCreatedAt (outbox.filter fun r => claimEligible r)).take max).map (·.id)
  let table := outbox.map fun r =>
    if r.id ∈ selected
    then { r with processed := true, processedAt := some now, retries := r.retries + 1 }
    else r
  let jobs := (table.filter fun r => r.id ∈ selected).map fun r =>
    ⟨r.id, r.topic, r.payload, r.idemKey, r.retries⟩
  (table, jobs)

/-- The UPDATE `revertOutbox` evidently intends (src/src/db/README.md:325-328,
spec §4.2): `SET processed=false, "processedAt"=null WHERE id=$id`. -/
def revertOutboxUpdate (id : Nat) (outbox : List OutboxRow) : List OutboxRow :=
  outbox.map fun r =>
    if r.id = id then { r with processed := false, processedAt := none } else r

/-- What the shipped `revertOutbox` does at runtime: its SQL text carries a
trailing comma before `WHERE` (src/src/db/README.md:327), Postgres rejects the
statement, `withErrorHandlingFn` swallows the error — no row changes. -/
def revertOutboxActual (_id : Nat) (outbox : List OutboxRow) : List OutboxRow :=
  outbox

/-- The broker as the pump sees it: whether publishes currently succeed, and
the messages published so far as (queue, content) pairs. -/
structure Broker where
  up : Bool
  published : List (String × String)
deriving Repr, DecidableEq

/-- `RabbitMQ.send` (src/src/utils/rabbitmq.ts:37-46): assert the queue and
publish persistent; any error is caught inside `send` itself and only logged —
`send` never rethrows. -/
def rabbitSend (b : Broker) (queue payload : String) : Broker × List LogEntry :=
  if b.up then ({ b with published := b.published ++ [(queue, payload)] }, [])
  else (b, [⟨LogLevel.error, "Something Went Wrong While Publishing Message"⟩])

/-- `handleOutbox` (src/src/db/README.md:331-341) for one claimed job.
`payloadOk` models whether `JSON.parse(outbox.payload)` succeeds (it does for
every payload the scheduler wrote).  On a parse failure the catch logs and
calls `revertOutbox`, whose malformed SQL changes no row
(`revertOutboxActual`).  A broker publish failure is swallowed inside
`RabbitMQ.send` and never reaches this catch, so no revert happens for it
either. -/
def handleOutbox (payloadOk : Bool) (b : Broker) (outbox : List OutboxRow)
    (job : OutboxJob) : Broker × List OutboxRow × List LogEntry :=
  if payloadOk then
    let r := rabbitSend b job.topic job.payload
    (r.1, outbox, r.2)
  else
    (b, revertOutboxActual job.id outbox,
     [⟨LogLevel.error, "Error handling outbox jobs"⟩])

/-! ## RabbitMQ consume: retry counting and DLQ routing

src/src/utils/rabbitmq.ts:48-88.  The consumer acks a message whose callback
returns; when the callback throws it reads `x-retries` (absent = 0) and either
republishes to the same queue with `x-retries + 1` and persistent delivery and
acks the original, or — at `maxRetries = 3` or beyond — rejects without
requeue, which routes the message to the broker's configured DLQ.
-/

/-- `maxRetries = 3` (src/src/utils/rabbitmq.ts:9). -/
def rabbitMaxRetries : Nat := 3

/-- What the consumer wrapper does with one delivery. -/
inductive ConsumeAction
  | ack
  | republishThenAck (queue : String) (content : String) (xRetries : Nat) (persistent : Bool)
  | rejectNoRequeue
deriving Repr, DecidableEq

/-- The delivery handler installed by `RabbitMQ.consume`
(src/src/utils/rabbitmq.ts:55-80): ack on success, otherwise count retries
from the `x-retries` header (`(headers?.["x-retries"] as number) || 0`). -/
def consumeDecision (queue content : String) (handlerOk : Bool)
    (xRetries : Option Nat) : ConsumeAction :=
  if handlerOk then ConsumeAction.ack
  else
    let retries := xRetries.getD 0
    if retries < rabbitMaxRetries
    then ConsumeAction.republishThenAck queue content (retries + 1) true
    else ConsumeAction.rejectNoRequeue

/-! ## Template processor

src/src/utils/templateProcessor.ts together with the special-variable registry
src/src/utils/specialVariables.ts.  Strings follow JavaScript truthiness:
`undefined` and `""` are both falsy, so an optional string field is modelled
as the `""`-defaulted string the code observes.
-/

/-- `TemplateProcessorConfig` (src/src/utils/templateProcessor.ts:14-22) with
the constructor's `??` defaults applied (lines 32-40). -/
structure TPConfig where
  caseSensitive : Bool
  allowUndefinedVariables : Bool
  undefinedVariableReplacement : String
  customVariables : List (String × String)
  enableSpecialVariables : Bool
  unsubscribeBaseUrl : String
  unsubscribeKey : String
deriving Repr, DecidableEq

/-- The constructor defaults (src/src/utils/templateProcessor.ts:32-40). -/
def defaultTPConfig : TPConfig :=
  ⟨false, true, "", [], true, "", "unsubscribe"⟩

/-- `LeadData` (src/unnamed/part_002:8-30): the lead columns the template
variables read.  Optional columns are `Option String`; `conversionRate` is an
optional number. -/
structure LeadData where
  id : String
  email : Option String
  firstName : Option String
  lastName : Option String
  phone : Option String
  companyName : Option String
  companyWebsite : Option String
  jobTitle : Option String
  industry : Option String
  companySize : Option String
  annualRevenue : Option String
  address : Option String
  state : Option String
  country : Option String
  source : Option String
  linkedinUrl : Option String
  conversionRate : Option Int
  organizationId : Option String
  assignedTo : Option String
  isSubscribedToEmail : Bool
  isEmailValid : String
deriving Repr, DecidableEq

/-- Association-list read of a JS object of strings; `none` is `undefined`. -/
def lookupVar (m : List (String × String)) (k : String) : Option String :=
  m.lookup k

/-- JS assignment `m[k] = v` on an object modelled as an association list. -/
def setVar (m : List (String × String)) (k v : String) : List (String × String) :=
  if (m.lookup k).isSome
  then m.map fun p => if p.1 = k then (k, v) else p
  else m ++ [(k, v)]

/-- ASCII lower-casing of one character (`toLowerCase()`; the keys the
occurrence regex admits are ASCII). -/
def lowerChar (c : Char) : Char :=
  if 65 ≤ c.toNat ∧ c.toNat ≤ 90 then Char.ofNat (c.toNat + 32) else c

def lowerAscii (s : String) : String :=
  String.mk (s.data.map lowerChar)

/-- `normalizeKey` (src/src/utils/templateProcessor.ts:222-224). -/
def normalizeKey (cfg : TPConfig) (key : String) : String :=
  if cfg.caseSensitive then key else lowerAscii key

/-- `toTitleCase` (src/src/utils/templateProcessor.ts:232-234): each word gets
its first character upper-cased and the rest lower-cased; modelled over
space-separated words. -/
def capitalizeWord (w : String) : String :=
  match w.data with
  | [] => ""
  | c :: rest => String.mk (c.toUpper :: rest.map Char.toLower)

def toTitleCase (s : String) : String :=
  String.intercalate " " ((s.splitOn " ").map capitalizeWord)

/-- `getFullName` (src/src/utils/templateProcessor.ts:226-230). -/
def getFullName (l : LeadData) : String :=
  (l.firstName.getD "" ++ " " ++ l.lastName.getD "").trim

/-- `getLeadVariables` (src/src/utils/templateProcessor.ts:104-139): the flat
variable namespace, then the custom variables merged in under normalized
keys. -/
def getLeadVariables (cfg : TPConfig) (l : LeadData) : List (String × String) :=
  let base : List (String × String) :=
    [("id", l.id),
     ("email", l.email.getD ""),
     ("firstname", l.firstName.getD ""),
     ("lastname", l.lastName.getD ""),
     ("fullname", getFullName l),
     ("phone", l.phone.getD ""),
     ("companyname", l.companyName.getD ""),
     ("companywebsite", l.companyWebsite.getD ""),
     ("jobtitle", l.jobTitle.getD ""),
     ("industry", l.industry.getD ""),
     ("companysize", l.companySize.getD ""),
     ("annualrevenue", l.annualRevenue.getD ""),
     ("address", l.address.getD ""),
     ("state", l.state.getD ""),
     ("country", l.country.getD ""),
     ("source", l.source.getD ""),
     ("linkedinurl", l.linkedinUrl.getD ""),
     ("conversionrate", (l.conversionRate.map toString).getD ""),
     ("organizationid", l.organizationId.getD ""),
     ("assignedto", l.assignedTo.getD ""),
     ("tfirstname", toTitleCase (l.firstName.getD "")),
     ("tlastname", toTitleCase (l.lastName.getD "")),
     ("tcompanyname", toTitleCase (l.companyName.getD "")),
     ("tjobtitle", toTitleCase (l.jobTitle.getD "")),
     ("tindustry", toTitleCase (l.industry.getD ""))]
  cfg.customVariables.foldl (fun m kv => setVar m (normalizeKey cfg kv.1) kv.2) base

/-- The host clock as the special variables read it:
`toLocaleDateString`, `getFullYear`, `getMonth` (0-based), `getDate`. -/
structure Clock where
  dateString : String
  year : Nat
  month : Nat
  day : Nat
deriving Repr, DecidableEq

/-- The special-variable registry `createSpecialVariables`
(src/src/utils/specialVariables.ts:44-80), as instantiated by the template
processor (src/src/utils/templateProcessor.ts:42-47): only the `unsubscribe`
config is set, so `config.ai` is undefined and `aiOpener` returns `""` without
calling the AI.  Keys are the source's camelCase spellings.  `none` means the
registry has no function under that name. -/
def evalSpecialVariable (cfg : TPConfig) (clock : Clock)
    (vars : List (String × String)) (fallback : Option String)
    (name : String) : Option String :=
  if name = "unsubscribe" then
    some (
      let leadId := (lookupVar vars "id").getD ""
      if cfg.unsubscribeBaseUrl = "" ∨ leadId = "" then
        (fallback.getD "")
      else
        cfg.unsubscribeBaseUrl ++ cfg.unsubscribeKey ++ "/" ++ leadId)
  else if name = "currentDate" then some clock.dateString
  else if name = "currentYear" then some (toString clock.year)
  else if name = "currentMonth" then some (toString clock.month)
  else if name = "currentDay" then some (toString clock.day)
  else if name = "aiOpener" then some ""
  else none

/-- One occurrence as the two regexes of the processor see the template: plain
text, an occurrence `[[key]]` / `[[key || fallback]]` matched by the advanced
regex `\[\[([a-zA-Z0-9_-]+)(?:\s*\|\|\s*(.+?))?\]\]`
(src/src/utils/templateProcessor.ts:167), or a bracketed occurrence the
advanced regex rejects but the strict regex `\[\[[^\]]+\]\]` (line 152)
catches. -/
inductive TemplateTok
  | lit (s : String)
  | placeholder (key : String) (fallback : Option String)
  | badVar (inner : String)
deriving Repr, DecidableEq

/-- The body of `matches.map` in `processAdvancedSyntax`
(src/src/utils/templateProcessor.ts:174-212): lead/custom variable if truthy,
else the special function when enabled and registered (none of the registered
functions throws in this model), else `fallback ?? undefinedVariableReplacement`. -/
def resolveOccurrence (cfg : TPConfig) (clock : Clock)
    (vars : List (String × String)) (key : String)
    (fallback : Option String) : String :=
  let normalized := normalizeKey cfg key
  let value := (lookupVar vars normalized).getD ""
  if value ≠ "" then value
  else
    let fromSpecial :=
      if cfg.enableSpecialVariables
      then evalSpecialVariable cfg clock vars fallback normalized
      else none
    match fromSpecial with
    | some r => r
    | none => fallback.getD cfg.undefinedVariableReplacement

/-- `processAdvancedSyntax` (src/src/utils/templateProcessor.ts:162-216):
every advanced-regex occurrence is replaced by its resolution; other content
is untouched. -/
def processAdvancedSyntax (cfg : TPConfig) (clock : Clock)
    (vars : List (String × String)) (toks : List TemplateTok) :
    List TemplateTok :=
  toks.map fun t =>
    match t with
    | TemplateTok.placeholder k fb => TemplateTok.lit (resolveOccurrence cfg clock vars k fb)
    | other => other

/-- Render one token to output text; `strict` is
`!allowUndefinedVariables`, in which case a leftover `[[...]]` occurrence is
replaced by the configured replacement (src/src/utils/templateProcessor.ts:151-154). -/
def renderTok (strict : Bool) (repl : String) : TemplateTok → String
  | TemplateTok.lit s => s
  | TemplateTok.placeholder k fb =>
      let inner := k ++ (match fb with | some f => " || " ++ f | none => "")
      if strict then repl else "[[" ++ inner ++ "]]"
  | TemplateTok.badVar inner =>
      if strict then repl else "[[" ++ inner ++ "]]"

/-- `replaceVariables` (src/src/utils/templateProcessor.ts:144-157): the
advanced pass, then — when `allowUndefinedVariables` is false — the strict
replacement of every remaining `[[...]]`. -/
def replaceVariables (cfg : TPConfig) (clock : Clock)
    (vars : List (String × String)) (toks : List TemplateTok) : String :=
  String.join ((processAdvancedSyntax cfg clock vars toks).map
    (renderTok (!cfg.allowUndefinedVariables) cfg.undefinedVariableReplacement))

/-! ### Tokenizing a template string

The decomposition of a template into `TemplateTok`s mirrors how the two
regexes scan it: at each `[[` the advanced regex
`\[\[([a-zA-Z0-9_-]+)(?:\s*\|\|\s*(.+?))?\]\]` is tried (key characters, then
either `]]` directly or `\s*||\s*`, a shortest non-empty newline-free fallback,
and `]]`); failing that, a span the strict regex `\[\[[^\]]+\]\]` accepts
becomes a `badVar`; failing both, the `[[` is plain text.  One simplification
is inherent to the token view: `[[...]]` text introduced *by a replacement
value itself* is not re-scanned by the strict pass.
-/

/-- `[a-zA-Z0-9_-]`. -/
def isKeyChar (c : Char) : Bool :=
  c.isAlphanum || c = '_' || c = '-'

/-- `\s` (ASCII whitespace as the occurrences use it). -/
def isWsChar (c : Char) : Bool :=
  c = ' ' || c = '\t' || c = '\n' || c = '\r'

/-- Split at the first `]]`, returning the part before it and the part after
it, or `none` when there is no `]]`. -/
def splitAtCloseBrackets : List Char → Option (List Char × List Char)
  | [] => none
  | [_] => none
  | a :: b :: rest =>
      if a = ']' ∧ b = ']' then some ([], rest)
      else
        match splitAtCloseBrackets (b :: rest) with
        | some (pre, post) => some (a :: pre, post)
        | none => none

/-- Try the advanced regex at a position just after `[[`; on success return
the occurrence and the unconsumed remainder. -/
def matchAdvanced (cs : List Char) : Option (TemplateTok × List Char) :=
  let key := cs.takeWhile isKeyChar
  let rest := cs.dropWhile isKeyChar
  if key.isEmpty then none
  else
    match rest with
    | ']' :: ']' :: rest2 => some (TemplateTok.placeholder (String.mk key) none, rest2)
    | _ =>
      let afterWs := rest.dropWhile isWsChar
      match afterWs with
      | '|' :: '|' :: tail =>
          match splitAtCloseBrackets tail with
          | some (seg, post) =>
              let fb0 := seg.dropWhile isWsChar
              let fb := if fb0.isEmpty then seg.drop (seg.length - 1) else fb0
              if fb.isEmpty ∨ fb.contains '\n' then none
              else some (TemplateTok.placeholder (String.mk key) (some (String.mk fb)), post)
          | none => none
      | _ => none

/-- Try the strict regex at a position just after `[[`. -/
def matchStrict (cs : List Char) : Option (TemplateTok × List Char) :=
  let inner := cs.takeWhile (· ≠ ']')
  let rest := cs.dropWhile (· ≠ ']')
  if inner.isEmpty then none
  else
    match rest with
    | ']' :: ']' :: rest2 => some (TemplateTok.badVar (String.mk inner), rest2)
    | _ => none

/-- Scan the template left to right (fuel-driven; `fuel` bounds the number of
characters consumed). -/
def tokenizeAux : Nat → List Char → List TemplateTok
  | 0, cs => [TemplateTok.lit (String.mk cs)]
  | _, [] => []
  | fuel + 1, '[' :: '[' :: rest =>
      (match matchAdvanced rest with
       | some (t, post) => t :: tokenizeAux fuel post
       | none =>
         match matchStrict rest with
         | some (t, post) => t :: tokenizeAux fuel post
         | none => TemplateTok.lit "[" :: tokenizeAux fuel ('[' :: rest))
  | fuel + 1, c :: rest => TemplateTok.lit (String.mk [c]) :: tokenizeAux fuel rest

/-- A template string as its occurrence list. -/
def tokenizeTemplate (s : String) : List TemplateTok :=
  tokenizeAux (2 * s.length + 2) s.data

/-- `processTemplate` (src/src/utils/templateProcessor.ts:53-99): empty
template short-circuits to `""`; otherwise collect the lead variables and run
`replaceVariables`.  (The `Context` the source builds is consumed only by
special functions that ignore it in this configuration.) -/
def processTemplate (cfg : TPConfig) (clock : Clock) (l : LeadData)
    (template : String) : String :=
  if template = "" then ""
  else replaceVariables cfg clock (getLeadVariables cfg l) (tokenizeTemplate template)

/-! ## Worker: lead processing and state advancement

`LeadProcessor.processLead` (src/unnamed/part_007:259-314) with the defaults of
`createLeadProcessor` (src/unnamed/part_007:405-429);
`updateLeadSequenceState` and `handleMessage`
(src/src/apps/worker/index.ts:34-106).
-/

/-- `TemplateData` (src/unnamed/part_002:45-59): the joined template pair. -/
structure TemplateData where
  seqSubject : String
  emailSubject : String
  emailBody : String
deriving Repr, DecidableEq

/-- The `EmailData` fields `createEmailData` fills (src/unnamed/part_007:194-212). -/
structure EmailData where
  toAddr : String
  subject : String
  body : String
  leadId : String
  sequenceId : String
  stepId : String
  templateId : String
deriving Repr, DecidableEq

/-- The read-only catalog the worker loads context from: leads by id, steps by
id, template data by `templateId`. -/
structure WorkerEnv where
  leads : List (String × LeadData)
  steps : List SequenceStepRow
  templates : List (String × TemplateData)
deriving Repr, DecidableEq

/-- The template-processor configuration `createLeadProcessor` passes
(src/unnamed/part_007:415-422): case-insensitive, undefined variables allowed,
empty replacement, no custom variables, special variables enabled,
`unsubscribeBaseUrl = MAIN_APP_BASE_URL || ""`. -/
def workerTPConfig (baseUrl : String) : TPConfig :=
  ⟨false, true, "", [], true, baseUrl, "unsubscribe"⟩

/-- `LeadProcessor.processLead` (src/unnamed/part_007:259-314): fetch lead and
step, validate existence and eligibility, fetch the template when the step
names one, render subject and body, build the `EmailData` — and then only
`console.log` it: line 291 is the comment `TODO: SEND EMAIL`, no email service
is invoked.  The second component of the result lists the `EmailData` values
handed to the email provider; it is `[]` on every path because the source
contains no send call. -/
def processLead (clock : Clock) (baseUrl : String) (env : WorkerEnv)
    (lead : PendingLead) : Except String EmailData × List EmailData :=
  match env.leads.lookup lead.lead_id with
  | none => (Except.error "Lead not found", [])
  | some leadData =>
    match env.steps.find? fun st => st.id = lead.step_id with
    | none => (Except.error "Sequence step not found", [])
    | some step =>
      if leadData.email.getD "" = "" then
        (Except.error "has no email address", [])
      else if ¬ leadData.isSubscribedToEmail then
        (Except.error "is not subscribed to email", [])
      else if leadData.isEmailValid = "INVALID" then
        (Except.error "email is marked as invalid", [])
      else
        let templateData :=
          if step.templateId ≠ "" then env.templates.lookup step.templateId else none
        let subject :=
          match templateData with
          | some td =>
              if td.seqSubject ≠ "" then td.seqSubject
              else if td.emailSubject ≠ "" then td.emailSubject
              else "No Subject"
          | none => "No Subject"
        let body :=
          match templateData with
          | some td => td.emailBody
          | none => ""
        let cfg := workerTPConfig baseUrl
        let emailData : EmailData :=
          ⟨leadData.email.getD "", processTemplate cfg clock leadData subject,
           processTemplate cfg clock leadData body, leadData.id,
           step.sequenceId, step.id, step.templateId⟩
        (Except.ok emailData, [])

/-- `MAX("stepNumber")` over the steps of one sequence; `none` is SQL NULL
(no rows), with which the CASE comparison is not true. -/
def maxStepNumber (steps : List SequenceStepRow) (seqId : String) : Option Nat :=
  ((steps.filter fun st => st.sequenceId = seqId).map (·.stepNumber)).max?

/-- `updateLeadSequenceState` (src/src/apps/worker/index.ts:34-76): the
conditional advancement UPDATE.  When the UPDATE matches zero rows (id not
found, or status neither PENDING nor RUNNING) the function **throws**
(`if (result.length === 0) throw new Error(...)`, lines 57-59). -/
def updateLeadSequenceState (now : Int) (steps : List SequenceStepRow)
    (states : List LeadStateRow) (leadStateId : String) :
    Except String (List LeadStateRow) :=
  if (states.filter fun s => s.id = leadStateId ∧ statusActive s).isEmpty then
    Except.error "No lead sequence state found or status not in PENDING/RUNNING"
  else
    Except.ok (states.map fun s =>
      if s.id = leadStateId ∧ statusActive s then
        { s with
          currentStep := s.currentStep + 1,
          status :=
            match maxStepNumber steps s.sequenceId with
            | some m => if s.currentStep + 1 ≥ m then LeadStatus.completed else LeadStatus.running
            | none => LeadStatus.running,
          lastSentAt := some now,
          failureCount := 0,
          updatedAt := now }
      else s)

/-- `handleMessage` (src/src/apps/worker/index.ts:91-106): `processLead`, then
on success `onSuccessfulMessage` → `updateLeadSequenceState`; any error is
rethrown. -/
def handleMessage (clock : Clock) (baseUrl : String) (env : WorkerEnv)
    (now : Int) (states : List LeadStateRow) (msg : PendingLead) :
    Except String (List LeadStateRow) × List EmailData :=
  match processLead clock baseUrl env msg with
  | (Except.error e, sends) => (Except.error e, sends)
  | (Except.ok _, sends) =>
    match updateLeadSequenceState now env.steps states msg.lead_state_id with
    | Except.error e => (Except.error e, sends)
    | Except.ok states2 => (Except.ok states2, sends)

/-! ## Worker: message validation (zod) and the delivery pipeline

`PendingLeadSchema` and `parseAndValidateMessage`
(src/src/apps/worker/index.ts:13-21, 113-131) and the consume callback of
`startWorker` (lines 191-219), composed with the `RabbitMQ.consume` wrapper.
-/

/-- A parsed JSON value. -/
inductive JsonVal
  | str (s : String)
  | num (n : Int)
  | jbool (b : Bool)
  | jnull
  | arr (xs : List JsonVal)
  | obj (fields : List (String × JsonVal))

/-- `z.string()` on one field. -/
def zodStr : Option JsonVal → Option String
  | some (JsonVal.str s) => some s
  | _ => none

/-- `z.number().int().min(lo)` on one field (integral numbers). -/
def zodIntMin (lo : Int) : Option JsonVal → Option Int
  | some (JsonVal.num n) => if lo ≤ n then some n else none
  | _ => none

/-- `PendingLeadSchema.parse` (src/src/apps/worker/index.ts:13-21): the four
id fields must be JSON **strings**; `current_step ≥ 0`, `step_number ≥ 1`,
`min_interval_min ≥ 0` must be integral numbers.  `none` models the thrown
`ZodError`. -/
def pendingLeadSchemaParse (j : JsonVal) : Option PendingLead :=
  match j with
  | JsonVal.obj fields => do
      let lsid ← zodStr (fields.lookup "lead_state_id")
      let lid ← zodStr (fields.lookup "lead_id")
      let sid ← zodStr (fields.lookup "sequence_id")
      let cs ← zodIntMin 0 (fields.lookup "current_step")
      let stid ← zodStr (fields.lookup "step_id")
      let sn ← zodIntMin 1 (fields.lookup "step_number")
      let mim ← zodIntMin 0 (fields.lookup "min_interval_min")
      some ⟨lsid, lid, sid, cs.toNat, stid, sn.toNat, mim.toNat⟩
  | _ => none

/-- `parseAndValidateMessage` (src/src/apps/worker/index.ts:113-131) on the
parsed JSON value of the message body; a `JSON.parse` failure also returns
`null` through the same catch, so `none` covers both. -/
def parseAndValidateMessage (j : JsonVal) : Option PendingLead :=
  pendingLeadSchemaParse j

/-- The pending-lead row type of src/src/db/queries/scheduler.ts:4-12, where
`lead_state_id`, `lead_id`, `sequence_id` and `step_id` are **numbers**. -/
structure PendingLeadNum where
  lead_state_id : Int
  lead_id : Int
  sequence_id : Int
  current_step : Int
  step_id : Int
  step_number : Int
  min_interval_min : Int
deriving Repr, DecidableEq

/-- The JSON value of such a row, as `JSON.stringify` of the record produces
it (the four ids are JSON numbers). -/
def pendingLeadNumJson (r : PendingLeadNum) : JsonVal :=
  JsonVal.obj
    [("lead_state_id", JsonVal.num r.lead_state_id),
     ("lead_id", JsonVal.num r.lead_id),
     ("sequence_id", JsonVal.num r.sequence_id),
     ("current_step", JsonVal.num r.current_step),
     ("step_id", JsonVal.num r.step_id),
     ("step_number", JsonVal.num r.step_number),
     ("min_interval_min", JsonVal.num r.min_interval_min)]

/-- One full worker delivery (src/src/apps/worker/index.ts:191-219 inside the
`RabbitMQ.consume` wrapper): parse-and-validate — an invalid message is
logged, the callback returns, the wrapper acks, `processLead` is never
reached; a valid message runs `handleMessage`, whose thrown error makes the
wrapper take the retry/DLQ branch.  `raw` is the message body `msg.content`
(the text whose parse `j` is). -/
def workerDelivery (clock : Clock) (baseUrl : String) (env : WorkerEnv)
    (now : Int) (states : List LeadStateRow) (raw : String) (j : JsonVal)
    (xRetries : Option Nat) : ConsumeAction × List LeadStateRow × List EmailData :=
  match parseAndValidateMessage j with
  | none => (ConsumeAction.ack, states, [])
  | some m =>
    let r := handleMessage clock baseUrl env now states m
    match r.1 with
    | Except.ok states2 => (consumeDecision SEQUENCE_TOPIC raw true xRetries, states2, r.2)
    | Except.error _ => (consumeDecision SEQUENCE_TOPIC raw false xRetries, states, r.2)

/-- The outbox invariant of spec §3/§8: `retries ≤ maxRetries` on every row. -/
def outboxRetriesInv (outbox : List OutboxRow) : Prop :=
  ∀ r ∈ outbox, r.retries ≤ r.maxRetries

instance (outbox : List OutboxRow) : Decidable (outboxRetriesInv outbox) := by
  unfold outboxRetriesInv; infer_instance

/-!
# Theorems

First the SHA-256 test vectors grounding the hash embedding, then helper
lemmas, then one theorem (plus counterexample/witness where due) per claim.
-/

example : sha256Hex (utf8Bytes "abc") =
    "ba7816bf8f01cfea414140de5dae2223b00361a396177a9cb410ff61f20015ad" := by decide

example : sha256Hex (utf8Bytes "") =
    "e3b0c44298fc1c149afbf4c8996fb92427ae41e4649b934ca495991b7852b855" := by decide

/-- C7: when the Worker's handler throws, the consumer reads `x-retries`
(absent means 0); below `maxRetries = 3` it republishes to the same queue with
`x-retries + 1` and persistent delivery and acks the original; at 3 or more it
rejects without requeue, routing the message to the DLQ. -/
theorem C7_consume_retry_dlq (queue content : String) (xr : Option Nat) :
    consumeDecision queue content true xr = ConsumeAction.ack ∧
    consumeDecision queue content false none = consumeDecision queue content false (some 0) ∧
    (xr.getD 0 < rabbitMaxRetries →
      consumeDecision queue content false xr =
        ConsumeAction.republishThenAck queue content (xr.getD 0 + 1) true) ∧
    (rabbitMaxRetries ≤ xr.getD 0 →
      consumeDecision queue content false xr = ConsumeAction.rejectNoRequeue) := by
  refine ⟨rfl, rfl, fun h => ?_, fun h => ?_⟩
  · simp [consumeDecision, h]
  · simp [consumeDecision, Nat.not_lt.mpr h]

/-- Witness for C7 at concrete retry counts 1 (republish with 2) and 3
(reject). -/
theorem C7_consume_retry_dlq_witness :
    consumeDecision "q" "c" false (some 1) = ConsumeAction.republishThenAck "q" "c" 2 true ∧
    consumeDecision "q" "c" false (some 3) = ConsumeAction.rejectNoRequeue :=
  ⟨(C7_consume_retry_dlq "q" "c" (some 1)).2.2.1 (by decide),
   (C7_consume_retry_dlq "q" "c" (some 3)).2.2.2 (by decide)⟩

/-- C10: every JSON payload shaped like the number-typed `PendingLead` row of
src/src/db/queries/scheduler.ts fails the Worker's `PendingLeadSchema` (the
four id fields must be strings), so `parseAndValidateMessage` returns null and
the Worker acks and drops the message without reaching `processLead`: the
state is untouched and nothing is sent. -/
theorem C10_number_ids_rejected (r : PendingLeadNum) (clock : Clock)
    (baseUrl : String) (env : WorkerEnv) (now : Int) (states : List LeadStateRow)
    (raw : String) (xr : Option Nat) :
    parseAndValidateMessage (pendingLeadNumJson r) = none ∧
    workerDelivery clock baseUrl env now states raw (pendingLeadNumJson r) xr =
      (ConsumeAction.ack, states, []) :=
  ⟨rfl, rfl⟩

/-- C2 (code bug): `processLead` never hands any `EmailData` to the email
provider — line 291 of src/unnamed/part_007 is the comment `TODO: SEND EMAIL`
and no send call exists — yet the Worker still advances the lead's sequence
state.  First conjunct: the provider-send list is empty on every input.
Second conjunct: a concrete eligible delivery is processed to completion
(state advanced to step 1, RUNNING) with zero provider calls, where the claim
demands exactly one call before the advancement. -/
theorem C2_provider_never_called :
    (∀ (clock : Clock) (baseUrl : String) (env : WorkerEnv) (lead : PendingLead),
      (processLead clock baseUrl env lead).2 = []) ∧
    workerDelivery ⟨"1/1/2025", 2025, 0, 1⟩ "https://app/"
      ⟨[("L1", ⟨"L1", some "a@b.c", some "jo", none, none, none, none, none, none,
                none, none, none, none, none, none, none, none, none, none, true, "VALID"⟩)],
       [⟨"st1", "sq", 1, "t1", 0⟩, ⟨"st2", "sq", 2, "t1", 0⟩],
       [("t1", ⟨"Subj", "", "Body"⟩)]⟩
      5 [⟨"s1", "L1", "sq", 0, LeadStatus.pending, none, 0, 0⟩] "raw"
      (JsonVal.obj
        [("lead_state_id", JsonVal.str "s1"), ("lead_id", JsonVal.str "L1"),
         ("sequence_id", JsonVal.str "sq"), ("current_step", JsonVal.num 0),
         ("step_id", JsonVal.str "st1"), ("step_number", JsonVal.num 1),
         ("min_interval_min", JsonVal.num 0)])
      none =
      (ConsumeAction.ack,
       [⟨"s1", "L1", "sq", 1, LeadStatus.running, some 5, 0, 5⟩], []) := by
  constructor
  · intro clock baseUrl env lead
    unfold processLead
    repeat' split
    all_goals rfl
  · decide

/-- C4 (code bug): a broker publish failure never reverts the claimed Outbox
row.  `RabbitMQ.send` catches and only logs its own errors, so `handleOutbox`'s
catch (the only caller of the — itself syntactically broken — `revertOutbox`)
is not reached: the table is unchanged on every publish-failure input, and on
a concrete claimed row the row stays `processed = true`, nothing is published,
and the next claim pass selects nothing, where the claim demands
`processed=false, processedAt=null` so a later pass retries it. -/
theorem C4_publish_failure_no_revert :
    (∀ (pubs : List (String × String)) (outbox : List OutboxRow) (job : OutboxJob),
      (handleOutbox true ⟨false, pubs⟩ outbox job).2.1 = outbox ∧
      (handleOutbox true ⟨false, pubs⟩ outbox job).1.published = pubs) ∧
    (handleOutbox true ⟨false, []⟩
        [⟨7, "SEQUENCE_TOPIC", "p", "k", true, some 5, 1, 5, 0⟩]
        ⟨7, "SEQUENCE_TOPIC", "p", "k", 1⟩).2.1 =
      [⟨7, "SEQUENCE_TOPIC", "p", "k", true, some 5, 1, 5, 0⟩] ∧
    (getPendingOutboxJobs 6 10
        [⟨7, "SEQUENCE_TOPIC", "p", "k", true, some 5, 1, 5, 0⟩]).2 = [] := by
  refine ⟨fun pubs outbox job => ⟨rfl, rfl⟩, by decide, by decide⟩

/-- C1 counterexample: for the eligible lead (sequence `seq-1`, lead `lead-1`,
`current_step = 0`) the scheduler inserts the outbox row under
`makeIdemKey("seq-1", "lead-1", current_step)` — the key of step number 0, not
of step number `current_step + 1 = 1` as the claim states — and the two keys
are different 32-hex strings. -/
theorem C1_counterexample :
    schedulerProcessLead 0 5 ⟨[], []⟩ ⟨"state-1", "lead-1", "seq-1", 0, "step-1", 1, 0⟩ =
      SchedTxResult.committed
        ⟨[], [⟨0, SEQUENCE_TOPIC,
               pendingLeadJsonStr ⟨"state-1", "lead-1", "seq-1", 0, "step-1", 1, 0⟩,
               makeIdemKey "seq-1" "lead-1" 0 0 "", false, none, 0, 5, 0⟩]⟩
        [⟨LogLevel.info, "Processing lead"⟩] ∧
    makeIdemKey "seq-1" "lead-1" 0 0 "" ≠ makeIdemKey "seq-1" "lead-1" (0 + 1) 0 "" := by
  decide

/-- C1 as amended: for every lead the scheduler enqueues, the Outbox
idempotency key inserted for it is `H(sequenceId, leadId, currentStep, 0, "")`
— `makeIdemKey` applied to the lead's **current** (last completed) step
number, with attempt 0 and empty suffix — not to `currentStep + 1`. -/
theorem C1_amended (now : Int) (maxR : Nat) (db : Db) (lead : PendingLead)
    (db2 : Db) (logs : List LogEntry)
    (h : schedulerProcessLead now maxR db lead = SchedTxResult.committed db2 logs) :
    ∃ row : OutboxRow, db2.outbox = db.outbox ++ [row] ∧
      row.idemKey = makeIdemKey lead.sequence_id lead.lead_id lead.current_step 0 "" := by
  unfold schedulerProcessLead at h
  split at h
  · cases h
  · obtain ⟨rfl, rfl⟩ := SchedTxResult.committed.inj h
    refine ⟨_, rfl, ?_⟩
    dsimp only
    rw [schedulerLeadKey]

/-- Witness for C1 as amended, at the concrete lead of the counterexample. -/
theorem C1_amended_witness :
    ∃ row : OutboxRow,
      (Db.mk []
        [⟨0, SEQUENCE_TOPIC,
          pendingLeadJsonStr ⟨"state-1", "lead-1", "seq-1", 0, "step-1", 1, 0⟩,
          makeIdemKey "seq-1" "lead-1" 0 0 "", false, none, 0, 5, 0⟩]).outbox =
        (Db.mk [] []).outbox ++ [row] ∧
      row.idemKey = makeIdemKey "seq-1" "lead-1" 0 0 "" :=
  C1_amended 0 5 ⟨[], []⟩ ⟨"state-1", "lead-1", "seq-1", 0, "step-1", 1, 0⟩
    ⟨[], [⟨0, SEQUENCE_TOPIC,
          pendingLeadJsonStr ⟨"state-1", "lead-1", "seq-1", 0, "step-1", 1, 0⟩,
          makeIdemKey "seq-1" "lead-1" 0 0 "", false, none, 0, 5, 0⟩]⟩
    [⟨LogLevel.info, "Processing lead"⟩] (by decide)

/-- C6 (code bug): on a batch of two leads where the first lead's idemKey is
already in the Outbox, `handleBatch` logs the duplicate at info level but then
throws an uncaught `DatabaseError`: the batch aborts (`false`), the database
is unchanged — the second lead, which on its own would have been enqueued
(last conjunct), never gets its outbox row — and the rejection escapes the
scheduler's `while (true)` loop, where the claim demands aborting only the
duplicate lead and moving on. -/
theorem C6_duplicate_aborts_batch :
    schedulerHandleBatch 0 5
      ⟨[], [⟨0, SEQUENCE_TOPIC, "", makeIdemKey "sq" "L1" 0 0 "", false, none, 0, 5, 0⟩]⟩
      [⟨"s1", "L1", "sq", 0, "st1", 1, 0⟩, ⟨"s2", "L2", "sq", 0, "st1", 1, 0⟩] =
      (⟨[], [⟨0, SEQUENCE_TOPIC, "", makeIdemKey "sq" "L1" 0 0 "", false, none, 0, 5, 0⟩]⟩,
       [⟨LogLevel.info, "already exists in Outbox"⟩], false) ∧
    schedulerProcessLead 0 5
      ⟨[], [⟨0, SEQUENCE_TOPIC, "", makeIdemKey "sq" "L1" 0 0 "", false, none, 0, 5, 0⟩]⟩
      ⟨"s2", "L2", "sq", 0, "st1", 1, 0⟩ =
      SchedTxResult.committed
        ⟨[], [⟨0, SEQUENCE_TOPIC, "", makeIdemKey "sq" "L1" 0 0 "", false, none, 0, 5, 0⟩,
              ⟨1, SEQUENCE_TOPIC, pendingLeadJsonStr ⟨"s2", "L2", "sq", 0, "st1", 1, 0⟩,
               makeIdemKey "sq" "L2" 0 0 "", false, none, 0, 5, 0⟩]⟩
        [⟨LogLevel.info, "Processing lead"⟩] := by
  constructor
  · decide
  · decide

/-- C3 counterexample: for a validly parsed message whose lead processes
successfully but whose `LeadSequenceState` row is terminal (COMPLETED), the
advancement UPDATE matches zero rows; `updateLeadSequenceState` **throws**
(worker/index.ts:57-59), so the consumer takes the republish branch — the
delivery is *not* acked as a success as the claim states. -/
theorem C3_counterexample :
    workerDelivery ⟨"1/1/2025", 2025, 0, 1⟩ "https://app/"
      ⟨[("L1", ⟨"L1", some "a@b.c", some "jo", none, none, none, none, none, none,
                none, none, none, none, none, none, none, none, none, none, true, "VALID"⟩)],
       [⟨"st1", "sq", 1, "t1", 0⟩, ⟨"st2", "sq", 2, "t1", 0⟩],
       [("t1", ⟨"Subj", "", "Body"⟩)]⟩
      5 [⟨"s1", "L1", "sq", 1, LeadStatus.completed, some 0, 0, 0⟩] "raw"
      (JsonVal.obj
        [("lead_state_id", JsonVal.str "s1"), ("lead_id", JsonVal.str "L1"),
         ("sequence_id", JsonVal.str "sq"), ("current_step", JsonVal.num 1),
         ("step_id", JsonVal.str "st2"), ("step_number", JsonVal.num 2),
         ("min_interval_min", JsonVal.num 0)])
      none =
      (ConsumeAction.republishThenAck SEQUENCE_TOPIC "raw" 1 true,
       [⟨"s1", "L1", "sq", 1, LeadStatus.completed, some 0, 0, 0⟩], []) ∧
    ConsumeAction.republishThenAck SEQUENCE_TOPIC "raw" 1 true ≠ ConsumeAction.ack := by
  decide

/-- C3 as amended: when the advancement UPDATE matches zero rows for an
otherwise successfully processed message, the Worker **throws**; the consumer
routes the delivery into the retry path — republish with `x-retries + 1` below
3 retries, reject to the DLQ at 3 or more — and never plain-acks it; the state
table is unchanged. -/
theorem C3_amended (clock : Clock) (baseUrl : String) (env : WorkerEnv)
    (now : Int) (states : List LeadStateRow) (raw : String) (j : JsonVal)
    (xr : Option Nat) (msg : PendingLead) (ed : EmailData)
    (hparse : parseAndValidateMessage j = some msg)
    (hok : (processLead clock baseUrl env msg).1 = Except.ok ed)
    (hzero : (states.filter fun s => s.id = msg.lead_state_id ∧ statusActive s) = []) :
    (workerDelivery clock baseUrl env now states raw j xr).1 =
      (if xr.getD 0 < rabbitMaxRetries
       then ConsumeAction.republishThenAck SEQUENCE_TOPIC raw (xr.getD 0 + 1) true
       else ConsumeAction.rejectNoRequeue) ∧
    (workerDelivery clock baseUrl env now states raw j xr).1 ≠ ConsumeAction.ack ∧
    (workerDelivery clock baseUrl env now states raw j xr).2.1 = states := by
  have hupd : updateLeadSequenceState now env.steps states msg.lead_state_id =
      Except.error "No lead sequence state found or status not in PENDING/RUNNING" := by
    unfold updateLeadSequenceState
    rw [hzero]
    rfl
  rcases hpr : processLead clock baseUrl env msg with ⟨r1, r2⟩
  rw [hpr] at hok
  simp only at hok
  subst hok
  refine ⟨?_, ?_, ?_⟩
  all_goals simp [workerDelivery, hparse, handleMessage, hpr, hupd, consumeDecision]
  all_goals split <;> simp

/-- Witness for C3 as amended at the counterexample's concrete delivery. -/
theorem C3_amended_witness :
    (workerDelivery ⟨"1/1/2025", 2025, 0, 1⟩ "https://app/"
      ⟨[("L1", ⟨"L1", some "a@b.c", some "jo", none, none, none, none, none, none,
                none, none, none, none, none, none, none, none, none, none, true, "VALID"⟩)],
       [⟨"st1", "sq", 1, "t1", 0⟩, ⟨"st2", "sq", 2, "t1", 0⟩],
       [("t1", ⟨"Subj", "", "Body"⟩)]⟩
      5 [⟨"s1", "L1", "sq", 1, LeadStatus.completed, some 0, 0, 0⟩] "raw"
      (JsonVal.obj
        [("lead_state_id", JsonVal.str "s1"), ("lead_id", JsonVal.str "L1"),
         ("sequence_id", JsonVal.str "sq"), ("current_step", JsonVal.num 1),
         ("step_id", JsonVal.str "st2"), ("step_number", JsonVal.num 2),
         ("min_interval_min", JsonVal.num 0)])
      (some 0)).1 =
      (if (some 0).getD 0 < rabbitMaxRetries
       then ConsumeAction.republishThenAck SEQUENCE_TOPIC "raw" ((some 0).getD 0 + 1) true
       else ConsumeAction.rejectNoRequeue) ∧
    (workerDelivery ⟨"1/1/2025", 2025, 0, 1⟩ "https://app/"
      ⟨[("L1", ⟨"L1", some "a@b.c", some "jo", none, none, none, none, none, none,
                none, none, none, none, none, none, none, none, none, none, true, "VALID"⟩)],
       [⟨"st1", "sq", 1, "t1", 0⟩, ⟨"st2", "sq", 2, "t1", 0⟩],
       [("t1", ⟨"Subj", "", "Body"⟩)]⟩
      5 [⟨"s1", "L1", "sq", 1, LeadStatus.completed, some 0, 0, 0⟩] "raw"
      (JsonVal.obj
        [("lead_state_id", JsonVal.str "s1"), ("lead_id", JsonVal.str "L1"),
         ("sequence_id", JsonVal.str "sq"), ("current_step", JsonVal.num 1),
         ("step_id", JsonVal.str "st2"), ("step_number", JsonVal.num 2),
         ("min_interval_min", JsonVal.num 0)])
      (some 0)).1 ≠ ConsumeAction.ack ∧
    (workerDelivery ⟨"1/1/2025", 2025, 0, 1⟩ "https://app/"
      ⟨[("L1", ⟨"L1", some "a@b.c", some "jo", none, none, none, none, none, none,
                none, none, none, none, none, none, none, none, none, none, true, "VALID"⟩)],
       [⟨"st1", "sq", 1, "t1", 0⟩, ⟨"st2", "sq", 2, "t1", 0⟩],
       [("t1", ⟨"Subj", "", "Body"⟩)]⟩
      5 [⟨"s1", "L1", "sq", 1, LeadStatus.completed, some 0, 0, 0⟩] "raw"
      (JsonVal.obj
        [("lead_state_id", JsonVal.str "s1"), ("lead_id", JsonVal.str "L1"),
         ("sequence_id", JsonVal.str "sq"), ("current_step", JsonVal.num 1),
         ("step_id", JsonVal.str "st2"), ("step_number", JsonVal.num 2),
         ("min_interval_min", JsonVal.num 0)])
      (some 0)).2.1 = [⟨"s1", "L1", "sq", 1, LeadStatus.completed, some 0, 0, 0⟩] :=
  C3_amended ⟨"1/1/2025", 2025, 0, 1⟩ "https://app/" _ 5 _ "raw" _ (some 0)
    ⟨"s1", "L1", "sq", 1, "st2", 2, 0⟩ ⟨"a@b.c", "Subj", "Body", "L1", "sq", "st2", "t1"⟩
    (by decide) rfl (by decide)

/-- C5 counterexample: a state row flipped to `updatedAt = now()` — inside the
one-hour in-flight window — is nevertheless returned by the `getPendingLeads`
of src/src/db/queries/scheduler.ts (the module the scheduler imports), because
that variant of the query carries no `updatedAt` condition. -/
theorem C5_counterexample :
    getPendingLeads [⟨"s1", "L1", "sq", 0, LeadStatus.pending, none, 0, 0⟩]
      [⟨"st1", "sq", 1, "t", 0⟩] 0 50 =
      [⟨"s1", "L1", "sq", 0, "st1", 1, 0⟩] ∧
    ¬ updatedAtGuard 0 ⟨"s1", "L1", "sq", 0, LeadStatus.pending, none, 0, 0⟩ := by
  decide

/-- C5 as amended: the eligibility query the Scheduler imports
(src/src/db/queries/scheduler.ts) returns only rows joined to the next
SequenceStep (`stepNumber = currentStep + 1`) that satisfy the status filter
and the `minIntervalMin` cooldown, limited to the batch size — it does *not*
apply the one-hour `updatedAt` guard; only the variant of the query in
src/unnamed/part_001 additionally enforces `updatedAt < now() − 1 hour`. -/
theorem C5_amended (states : List LeadStateRow) (steps : List SequenceStepRow)
    (now : Int) (max : Nat) (r : PendingLead) :
    ((getPendingLeads states steps now max).length ≤ max ∧
     (getPendingLeadsGuarded states steps now max).length ≤ max) ∧
    (r ∈ getPendingLeads states steps now max →
      ∃ ls ∈ states, ∃ st ∈ steps, joinCond ls st ∧ statusActive ls ∧
        cooldownOk now ls st ∧ r = mkPendingLead ls st) ∧
    (r ∈ getPendingLeadsGuarded states steps now max →
      ∃ ls ∈ states, ∃ st ∈ steps, joinCond ls st ∧ statusActive ls ∧
        cooldownOk now ls st ∧ updatedAtGuard now ls ∧ r = mkPendingLead ls st) := by
  refine ⟨⟨?_, ?_⟩, fun h => ?_, fun h => ?_⟩
  · rw [getPendingLeads, List.length_take]; omega
  · rw [getPendingLeadsGuarded, List.length_take]; omega
  · have h1 := List.take_subset _ _ h
    rw [List.mem_flatMap] at h1
    obtain ⟨ls, hls, h2⟩ := h1
    rw [List.mem_filterMap] at h2
    obtain ⟨st, hst, h3⟩ := h2
    by_cases hc : joinCond ls st ∧ statusActive ls ∧ cooldownOk now ls st
    · rw [if_pos hc] at h3
      exact ⟨ls, hls, st, hst, hc.1, hc.2.1, hc.2.2, (Option.some.inj h3).symm⟩
    · rw [if_neg hc] at h3; cases h3
  · have h1 := List.take_subset _ _ h
    rw [List.mem_flatMap] at h1
    obtain ⟨ls, hls, h2⟩ := h1
    rw [List.mem_filterMap] at h2
    obtain ⟨st, hst, h3⟩ := h2
    by_cases hc : joinCond ls st ∧ statusActive ls ∧ cooldownOk now ls st ∧ updatedAtGuard now ls
    · rw [if_pos hc] at h3
      exact ⟨ls, hls, st, hst, hc.1, hc.2.1, hc.2.2.1, hc.2.2.2, (Option.some.inj h3).symm⟩
    · rw [if_neg hc] at h3; cases h3

/-- Witness for C5 as amended: the unguarded query at the counterexample's
data, and the guarded query at a state old enough to pass the guard. -/
theorem C5_amended_witness :
    (∃ ls ∈ [(⟨"s1", "L1", "sq", 0, LeadStatus.pending, none, 0, 0⟩ : LeadStateRow)],
      ∃ st ∈ [(⟨"st1", "sq", 1, "t", 0⟩ : SequenceStepRow)],
        joinCond ls st ∧ statusActive ls ∧ cooldownOk 0 ls st ∧
        (⟨"s1", "L1", "sq", 0, "st1", 1, 0⟩ : PendingLead) = mkPendingLead ls st) ∧
    (∃ ls ∈ [(⟨"s1", "L1", "sq", 0, LeadStatus.pending, none, 0, -100⟩ : LeadStateRow)],
      ∃ st ∈ [(⟨"st1", "sq", 1, "t", 0⟩ : SequenceStepRow)],
        joinCond ls st ∧ statusActive ls ∧ cooldownOk 0 ls st ∧ updatedAtGuard 0 ls ∧
        (⟨"s1", "L1", "sq", 0, "st1", 1, 0⟩ : PendingLead) = mkPendingLead ls st) :=
  ⟨(C5_amended [⟨"s1", "L1", "sq", 0, LeadStatus.pending, none, 0, 0⟩]
      [⟨"st1", "sq", 1, "t", 0⟩] 0 50 ⟨"s1", "L1", "sq", 0, "st1", 1, 0⟩).2.1 (by decide),
   (C5_amended [⟨"s1", "L1", "sq", 0, LeadStatus.pending, none, 0, -100⟩]
      [⟨"st1", "sq", 1, "t", 0⟩] 0 50 ⟨"s1", "L1", "sq", 0, "st1", 1, 0⟩).2.2 (by decide)⟩

/-- Membership through the stable insertion of the pump's `ORDER BY` model. -/
theorem mem_insertByCreatedAt {a r : OutboxRow} {l : List OutboxRow}
    (h : a ∈ insertByCreatedAt r l) : a = r ∨ a ∈ l := by
  induction l with
  | nil => simpa [insertByCreatedAt] using h
  | cons x xs ih =>
      rw [insertByCreatedAt] at h
      split at h
      · rcases List.mem_cons.mp h with h1 | h2
        · exact Or.inr (by simp [h1])
        · rcases ih h2 with h3 | h4
          · exact Or.inl h3
          · exact Or.inr (List.mem_cons_of_mem _ h4)
      · rcases List.mem_cons.mp h with h1 | h2
        · exact Or.inl h1
        · exact Or.inr h2

/-- Sorting by `createdAt` introduces no new rows. -/
theorem mem_sortByCreatedAt {a : OutboxRow} {l : List OutboxRow}
    (h : a ∈ sortByCreatedAt l) : a ∈ l := by
  induction l with
  | nil => simp [sortByCreatedAt] at h
  | cons x xs ih =>
      have h2 : a ∈ insertByCreatedAt x (sortByCreatedAt xs) := h
      rcases mem_insertByCreatedAt h2 with h3 | h4
      · simp [h3]
      · exact List.mem_cons_of_mem _ (ih h4)

/-- The outbox of a committed scheduler transaction: the old table plus the one
freshly inserted row (`retries = 0`). -/
theorem schedulerProcessLead_outbox (now : Int) (maxR : Nat) (db : Db)
    (lead : PendingLead) (db2 : Db) (logs : List LogEntry)
    (h : schedulerProcessLead now maxR db lead = SchedTxResult.committed db2 logs) :
    db2.outbox = db.outbox ++
      [⟨db.outbox.length, SEQUENCE_TOPIC, pendingLeadJsonStr lead,
        schedulerLeadKey lead, false, none, 0, maxR, now⟩] := by
  unfold schedulerProcessLead at h
  split at h
  · cases h
  · obtain ⟨rfl, rfl⟩ := SchedTxResult.committed.inj h
    rfl

/-- C8: `retries ≤ maxRetries` is preserved by every Outbox mutation of this
core: the Pump's claim query increments `retries` only on rows it selected
with `retries < maxRetries`; the revert (both the UPDATE its SQL intends and
the no-op the malformed statement actually performs) leaves `retries`
untouched; and a scheduler insert adds a row with `retries = 0`.
`hNodup` is the primary-key uniqueness of `Outbox.id`. -/
theorem C8_retries_le_maxRetries (now : Int) (maxN idN : Nat)
    (outbox : List OutboxRow) (hNodup : (outbox.map (fun r => r.id)).Nodup)
    (hinv : outboxRetriesInv outbox)
    (maxR : Nat) (db : Db) (lead : PendingLead) (db2 : Db) (logs : List LogEntry)
    (hdb : outboxRetriesInv db.outbox)
    (hcommit : schedulerProcessLead now maxR db lead = SchedTxResult.committed db2 logs) :
    outboxRetriesInv (getPendingOutboxJobs now maxN outbox).1 ∧
    outboxRetriesInv (revertOutboxUpdate idN outbox) ∧
    outboxRetriesInv (revertOutboxActual idN outbox) ∧
    outboxRetriesInv db2.outbox := by
  refine ⟨?_, ?_, ?_, ?_⟩
  · intro r2 hr2
    simp only [getPendingOutboxJobs] at hr2
    rw [List.mem_map] at hr2
    obtain ⟨r, hr, heq⟩ := hr2
    split at heq
    · rename_i hid
      rw [List.mem_map] at hid
      obtain ⟨r3, hr3, hid3⟩ := hid
      have hr3f : r3 ∈ outbox.filter (fun x => claimEligible x) :=
        mem_sortByCreatedAt (List.take_subset _ _ hr3)
      rw [List.mem_filter] at hr3f
      have hr3r : r3 = r :=
        List.inj_on_of_nodup_map hNodup hr3f.1 hr hid3
      have helig : claimEligible r := by
        have := hr3f.2
        rw [decide_eq_true_eq] at this
        exact hr3r ▸ this
      subst heq
      exact Nat.succ_le_of_lt helig.2
    · subst heq
      exact hinv r hr
  · intro r2 hr2
    rw [revertOutboxUpdate, List.mem_map] at hr2
    obtain ⟨r, hr, heq⟩ := hr2
    split at heq <;> subst heq <;> exact hinv r hr
  · intro r2 hr2
    exact hinv r2 hr2
  · intro r2 hr2
    rw [schedulerProcessLead_outbox now maxR db lead db2 logs hcommit] at hr2
    rcases List.mem_append.mp hr2 with h1 | h2
    · exact hdb r2 h1
    · rcases List.mem_singleton.mp h2 with rfl
      exact Nat.zero_le _

/-- Witness for C8 at a concrete two-row table (one row at the retry bound,
one claimable) and a concrete scheduler commit. -/
theorem C8_retries_le_maxRetries_witness :
    outboxRetriesInv (getPendingOutboxJobs 9 10
      [⟨0, "t", "p", "k0", false, none, 5, 5, 0⟩,
       ⟨1, "t", "p", "k1", false, none, 0, 5, 1⟩]).1 ∧
    outboxRetriesInv (revertOutboxUpdate 1
      [⟨0, "t", "p", "k0", false, none, 5, 5, 0⟩,
       ⟨1, "t", "p", "k1", false, none, 0, 5, 1⟩]) ∧
    outboxRetriesInv (revertOutboxActual 1
      [⟨0, "t", "p", "k0", false, none, 5, 5, 0⟩,
       ⟨1, "t", "p", "k1", false, none, 0, 5, 1⟩]) ∧
    outboxRetriesInv
      (Db.mk []
        [⟨0, SEQUENCE_TOPIC,
          pendingLeadJsonStr ⟨"state-1", "lead-1", "seq-1", 0, "step-1", 1, 0⟩,
          makeIdemKey "seq-1" "lead-1" 0 0 "", false, none, 0, 5, 9⟩]).outbox :=
  C8_retries_le_maxRetries 9 10 1
    [⟨0, "t", "p", "k0", false, none, 5, 5, 0⟩,
     ⟨1, "t", "p", "k1", false, none, 0, 5, 1⟩]
    (by decide) (by decide) 5 ⟨[], []⟩ ⟨"state-1", "lead-1", "seq-1", 0, "step-1", 1, 0⟩
    ⟨[], [⟨0, SEQUENCE_TOPIC,
          pendingLeadJsonStr ⟨"state-1", "lead-1", "seq-1", 0, "step-1", 1, 0⟩,
          makeIdemKey "seq-1" "lead-1" 0 0 "", false, none, 0, 5, 9⟩]⟩
    [⟨LogLevel.info, "Processing lead"⟩] (by decide) (by decide)

/-- C9 counterexample: with `undefinedVariableReplacement = "X"` (and
undefined variables allowed, the default), the occurrence `[[unknownkey]]` —
no variable, no special function, no fallback — resolves to the **configured
replacement** `"X"` (`fallback ?? undefinedVariableReplacement`,
templateProcessor.ts:210), not to the empty string the claim prescribes for
that case. -/
theorem C9_counterexample :
    processTemplate { defaultTPConfig with undefinedVariableReplacement := "X" }
      ⟨"1/1/2025", 2025, 0, 1⟩
      ⟨"L1", some "a@b.c", none, none, none, none, none, none, none, none, none,
       none, none, none, none, none, none, none, none, true, "VALID"⟩
      "[[unknownkey]]" = "X" ∧ ("X" : String) ≠ "" := by
  decide

/-- C9 as amended: each `[[key]]` / `[[key || fallback]]` occurrence resolves,
in order, to the non-empty lead/custom variable value, else the registered
special-variable function's value (when special variables are enabled), else
the fallback literal, else the **configured undefined-variable replacement**
(the empty string by default); and when `allowUndefinedVariables` is false,
a `[[...]]` occurrence the advanced pass left behind is replaced with the
configured replacement string. -/
theorem C9_resolution_order (cfg : TPConfig) (clock : Clock)
    (vars : List (String × String)) (key : String) (fb : Option String)
    (inner : String) :
    (∀ v, lookupVar vars (normalizeKey cfg key) = some v → v ≠ "" →
        resolveOccurrence cfg clock vars key fb = v) ∧
    ((lookupVar vars (normalizeKey cfg key)).getD "" = "" →
      cfg.enableSpecialVariables = true →
      ∀ rv, evalSpecialVariable cfg clock vars fb (normalizeKey cfg key) = some rv →
        resolveOccurrence cfg clock vars key fb = rv) ∧
    ((lookupVar vars (normalizeKey cfg key)).getD "" = "" →
      (cfg.enableSpecialVariables = false ∨
        evalSpecialVariable cfg clock vars fb (normalizeKey cfg key) = none) →
      resolveOccurrence cfg clock vars key fb = fb.getD cfg.undefinedVariableReplacement) ∧
    (cfg.allowUndefinedVariables = false →
      replaceVariables cfg clock vars [TemplateTok.badVar inner] =
        cfg.undefinedVariableReplacement) := by
  refine ⟨fun v hv hne => ?_, fun h0 hs rv hsv => ?_, fun h0 hd => ?_, fun hstrict => ?_⟩
  · simp [resolveOccurrence, hv, hne]
  · simp [resolveOccurrence, h0, hs, hsv]
  · rcases hd with hd | hd
    · simp [resolveOccurrence, h0, hd]
    · by_cases hs : cfg.enableSpecialVariables <;>
        simp [resolveOccurrence, h0, hd, hs]
  · simp [replaceVariables, processAdvancedSyntax, renderTok, hstrict, String.join]

/-- Witness for C9 as amended: a non-empty variable wins; a missing variable
with a registered special (`aiOpener`, which returns `""` in this
configuration) resolves through the special; an unknown key falls to
`fallback ?? replacement`; a strict-mode leftover becomes the replacement. -/
theorem C9_resolution_order_witness :
    resolveOccurrence defaultTPConfig ⟨"d", 2025, 0, 1⟩ [("firstname", "jo")]
      "firstname" (some "Friend") = "jo" ∧
    resolveOccurrence defaultTPConfig ⟨"d", 2025, 0, 1⟩ [] "unsubscribe" none = "" ∧
    resolveOccurrence defaultTPConfig ⟨"d", 2025, 0, 1⟩ [] "unknownkey" (some "fb") = "fb" ∧
    replaceVariables
      { defaultTPConfig with allowUndefinedVariables := false, undefinedVariableReplacement := "GONE" }
      ⟨"d", 2025, 0, 1⟩ [] [TemplateTok.badVar "bad key"] = "GONE" :=
  ⟨(C9_resolution_order defaultTPConfig ⟨"d", 2025, 0, 1⟩ [("firstname", "jo")]
      "firstname" (some "Friend") "x").1 "jo" (by decide) (by decide),
   (C9_resolution_order defaultTPConfig ⟨"d", 2025, 0, 1⟩ [] "unsubscribe" none "x").2.1
      (by decide) (by decide) "" (by decide),
   (C9_resolution_order defaultTPConfig ⟨"d", 2025, 0, 1⟩ [] "unknownkey" (some "fb") "x").2.2.1
      (by decide) (Or.inr (by decide)),
   (C9_resolution_order
      { defaultTPConfig with allowUndefinedVariables := false, undefinedVariableReplacement := "GONE" }
      ⟨"d", 2025, 0, 1⟩ [] "k" none "bad key").2.2.2 (by decide)⟩

end Skyfunnel
